import Mathlib

/-!
# Vanilla.LOOK — verification of the sampling-and-refresh core

Shallow embedding of `src/main_star.py` (the only source file).  Pure
helpers become Lean functions; the stateful `SystemSampler` and the
consumer (`VanillaLOOKApp`) become explicit state-passing functions.
Python floats are modelled as `ℚ` (all arithmetic the claims touch is
exact), OS byte counters as `ℕ`, nullable Python values as `Option`.
-/

namespace VanillaLOOK

/-- One-decimal fixed-point rendering of a rational, as Python's
`f"{num:3.1f}"` / `f"{num:.1f}"` produce (the minimum field width 3 of
the former never pads, because a one-decimal rendering is at least three
characters wide).  Rounding ties at half a tenth never arise in the
properties proved below. -/
def formatFixed1 (q : ℚ) : String :=
  let n : ℤ := round (q * 10)
  let sign := if n < 0 then "-" else ""
  let m := n.natAbs
  sign ++ toString (m / 10) ++ "." ++ toString (m % 10)

/-- The unit labels the `human_bytes` loop iterates over (line 36 of the
source): `['','K','M','G','T','P','E','Z']`, with `Y` used by the
fall-through return after the loop. -/
def byteUnits : List String := ["", "K", "M", "G", "T", "P", "E", "Z"]

/-- The `for unit in [...]` loop body of `human_bytes` (lines 36-40):
if `abs(num) < 1024.0` return `f"{num:3.1f}{unit}{suffix}"`, else divide
by `1024.0` and continue; after the loop, return `f"{num:.1f}Y{suffix}"`. -/
def humanBytesLoop (suffix : String) : List String → ℚ → String
  | [], num => formatFixed1 num ++ "Y" ++ suffix
  | unit :: units, num =>
    if |num| < 1024 then formatFixed1 num ++ unit ++ suffix
    else humanBytesLoop suffix units (num / 1024)

/-- `human_bytes(num, suffix)` (lines 28-40) for a numeric or `None`
argument.  `None` renders as `"N/A"`; a number runs the 1024-step loop.
(The `try: float(num)`/`except` branch for non-numeric input is outside
the numeric model; every call in the program passes a number or `None`.) -/
def human_bytesWith (suffix : String) (num : Option ℚ) : String :=
  match num with
  | none => "N/A"
  | some n => humanBytesLoop suffix byteUnits n

/-- `human_bytes` at its default suffix `'B'`, the form every call site
in the program uses. -/
def human_bytes (num : Option ℚ) : String :=
  human_bytesWith "B" num

/-! ## Counters and rates (SystemSampler) -/

/-- The fields of `psutil.net_io_counters(pernic=False)` the program
reads (lines 112-113, 366-369). -/
structure NetCounters where
  bytes_sent : ℕ
  bytes_recv : ℕ
  packets_sent : ℕ
  packets_recv : ℕ
  deriving Repr, DecidableEq

/-- The fields of `psutil.disk_io_counters()` the program reads
(lines 116-117). -/
structure DiskCounters where
  read_bytes : ℕ
  write_bytes : ℕ
  deriving Repr, DecidableEq

/-- `time_interval = 1.0` (line 110): the nominal sampling period used
as the rate divisor, not a measured wall-clock delta. -/
def time_interval : ℚ := 1.0

/-- The `net_delta` dictionary (lines 111-114).  `self.prev_net` is a
non-empty named tuple, hence always truthy in Python, so the
`if self.prev_net else None` guard always takes the populated branch;
the `Option` mirrors the nullable slot of the dictionary value. -/
structure NetRates where
  bytes_sent_per_sec : Option ℚ
  bytes_recv_per_sec : Option ℚ
  deriving Repr, DecidableEq

/-- The `disk_delta` dictionary (lines 115-118), computed from the
previous disk counters; the program computes it each call but does not
place it in the returned snapshot dictionary. -/
structure DiskRates where
  read_bytes_per_sec : Option ℚ
  write_bytes_per_sec : Option ℚ
  deriving Repr, DecidableEq

/-- Lines 111-114: each network rate is
`(current_counter - previous_counter) / time_interval`. -/
def net_delta (prev net_io : NetCounters) : NetRates :=
  { bytes_sent_per_sec :=
      some (((net_io.bytes_sent : ℚ) - (prev.bytes_sent : ℚ)) / time_interval)
    bytes_recv_per_sec :=
      some (((net_io.bytes_recv : ℚ) - (prev.bytes_recv : ℚ)) / time_interval) }

/-- Lines 115-118: each disk rate is
`(current_counter - previous_counter) / time_interval`. -/
def disk_delta (prev disk_io : DiskCounters) : DiskRates :=
  { read_bytes_per_sec :=
      some (((disk_io.read_bytes : ℚ) - (prev.read_bytes : ℚ)) / time_interval)
    write_bytes_per_sec :=
      some (((disk_io.write_bytes : ℚ) - (prev.write_bytes : ℚ)) / time_interval) }

/-! ## Disk partitions -/

/-- The fields of a `psutil.disk_partitions` entry the program reads
(lines 74-78). -/
structure PartitionInfo where
  device : String
  mountpoint : String
  fstype : String
  opts : String
  deriving Repr, DecidableEq

/-- The fields of a successful `psutil.disk_usage` result (lines 80-83). -/
structure DiskUsage where
  total : ℕ
  used : ℕ
  free : ℕ
  percent : ℚ
  deriving Repr, DecidableEq

/-- The inner `"usage"` dictionary built at lines 79-84: its four keys
are always present, each holding the corresponding usage value or
`None`. -/
structure UsageDict where
  total : Option ℕ
  used : Option ℕ
  free : Option ℕ
  percent : Option ℚ
  deriving Repr, DecidableEq

/-- One entry of the snapshot's partition list (lines 74-85).  `usage`
models the nullable dictionary slot under the `"usage"` key; the code
always fills it with a `UsageDict`, never with `None`. -/
structure PartitionEntry where
  device : String
  mountpoint : String
  fstype : String
  opts : String
  usage : Option UsageDict
  deriving Repr, DecidableEq

/-- The body of the partition loop (lines 69-85): `usage` is the result
of `psutil.disk_usage(p.mountpoint)`, or `none` when that call raised
`PermissionError`; the appended entry copies the partition fields and
builds the `"usage"` dictionary with each value `usage.X if usage else
None`. -/
def partitionEntry (p : PartitionInfo) (usage : Option DiskUsage) : PartitionEntry :=
  { device := p.device
    mountpoint := p.mountpoint
    fstype := p.fstype
    opts := p.opts
    usage := some
      { total := usage.map (fun u => u.total)
        used := usage.map (fun u => u.used)
        free := usage.map (fun u => u.free)
        percent := usage.map (fun u => u.percent) } }

/-! ## Processes -/

/-- One entry of the raw process list (lines 96-104), built from
`p.info.get(...)` values, each of which can be `None`. -/
structure ProcEntry where
  pid : Option ℕ
  name : Option String
  username : Option String
  cpu_percent : Option ℚ
  memory_percent : Option ℚ
  memory_rss : Option ℕ
  status : Option String
  deriving Repr, DecidableEq

/-- The sort key of line 107: `(x.get('cpu_percent') or 0.0,
x.get('memory_percent') or 0.0)`.  Python's `or 0.0` maps the falsy
values `None` and `0.0` to `0.0`, which on these fields is exactly
`Option.getD 0`. -/
def procKey (x : ProcEntry) : ℚ × ℚ :=
  (x.cpu_percent.getD 0, x.memory_percent.getD 0)

/-- Python's lexicographic comparison on a pair of floats,
`p <= q` as a Boolean. -/
def pairLE (p q : ℚ × ℚ) : Bool :=
  decide (p.1 < q.1) || (decide (p.1 = q.1) && decide (p.2 ≤ q.2))

/-- The comparator realising `sorted(procs, key=..., reverse=True)`
(line 107) as a stable merge sort: `a` may precede `b` exactly when
`b`'s key is lexicographically at most `a`'s, which keeps equal-key
elements in input order exactly as Python's stable descending sort
does. -/
def procDescLE (a b : ProcEntry) : Bool :=
  pairLE (procKey b) (procKey a)

/-- Line 107: `procs_sorted = sorted(procs, key=..., reverse=True)[:50]`. -/
def procsSorted (procs : List ProcEntry) : List ProcEntry :=
  (procs.mergeSort procDescLE).take 50

/-! ## Snapshot -/

/-- The `"platform"` sub-dictionary (lines 126-133). -/
structure PlatformInfo where
  system : String
  node : String
  release : String
  version : String
  machine : String
  processor : String
  deriving Repr, DecidableEq

/-- The fields of `psutil.cpu_freq()._asdict()` (line 138). -/
structure CpuFreq where
  current : ℚ
  min : ℚ
  max : ℚ
  deriving Repr, DecidableEq

/-- The `"cpu"` sub-dictionary (lines 134-140). -/
structure CpuInfo where
  total_percent : ℚ
  per_core : List ℚ
  count : ℕ
  freq : Option CpuFreq
  load_avg : ℚ × ℚ × ℚ
  deriving Repr, DecidableEq

/-- The fields of `psutil.virtual_memory()._asdict()` the program
reads, plus the sizes (lines 142, 337, 339). -/
structure VirtualMemory where
  total : ℕ
  available : ℕ
  used : ℕ
  free : ℕ
  percent : ℚ
  deriving Repr, DecidableEq

/-- The fields of `psutil.swap_memory()._asdict()` (line 143). -/
structure SwapMemory where
  total : ℕ
  used : ℕ
  free : ℕ
  percent : ℚ
  deriving Repr, DecidableEq

/-- The `"memory"` sub-dictionary (lines 141-144). -/
structure MemoryInfo where
  virtual : VirtualMemory
  swap : SwapMemory
  deriving Repr, DecidableEq

/-- The `"disk"` sub-dictionary (lines 145-148). -/
structure DiskData where
  partitions : List PartitionEntry
  io : DiskCounters
  deriving Repr, DecidableEq

/-- The `"network"` sub-dictionary (lines 149-152). -/
structure NetData where
  io : NetCounters
  rates : NetRates
  deriving Repr, DecidableEq

/-- The snapshot dictionary built at lines 124-154. -/
structure Snapshot where
  timestamp : String
  platform : PlatformInfo
  cpu : CpuInfo
  memory : MemoryInfo
  disk : DiskData
  network : NetData
  processes : List ProcEntry
  deriving Repr, DecidableEq

/-- Everything one `snapshot()` call reads from the operating system
(psutil / platform / os queries, lines 55-93): the embedding passes
these as an explicit input. -/
structure OSReading where
  t : String
  cpu_percent : ℚ
  percore : List ℚ
  cpu_count : ℕ
  cpu_freq : Option CpuFreq
  load_avg : ℚ × ℚ × ℚ
  virtual : VirtualMemory
  swap : SwapMemory
  partitions : List (PartitionInfo × Option DiskUsage)
  disk_io : DiskCounters
  net_io : NetCounters
  platform : PlatformInfo
  procs : List ProcEntry
  deriving Repr, DecidableEq

/-- The `SystemSampler`'s state: `self.prev_net` and `self.prev_disk`
(lines 48-49), the only fields `snapshot()` mutates (its lock, line 50,
serialises calls, which is what lets the embedding treat the call
sequence as a list). -/
structure SystemSampler where
  prev_net : NetCounters
  prev_disk : DiskCounters
  deriving Repr, DecidableEq

/-- `SystemSampler.snapshot` (lines 52-155) as a state-passing function:
given the current OS reading it returns the snapshot dictionary and the
updated sampler (whose previous counters are the ones just read,
lines 121-122).  `disk_delta` (lines 115-118) is computed by the source
at this point and then never placed in the snapshot dictionary; it is
modelled by the standalone `disk_delta` above. -/
def SystemSampler.snapshot (self : SystemSampler) (r : OSReading) :
    Snapshot × SystemSampler :=
  let partitions := r.partitions.map (fun p => partitionEntry p.1 p.2)
  let procs_sorted := procsSorted r.procs
  let netd := net_delta self.prev_net r.net_io
  ({ timestamp := r.t
     platform := r.platform
     cpu :=
       { total_percent := r.cpu_percent
         per_core := r.percore
         count := r.cpu_count
         freq := r.cpu_freq
         load_avg := r.load_avg }
     memory := { virtual := r.virtual, swap := r.swap }
     disk := { partitions := partitions, io := r.disk_io }
     network := { io := r.net_io, rates := netd }
     processes := procs_sorted },
   { prev_net := r.net_io, prev_disk := r.disk_io })

/-- `snapshot()` iterated over a list of successive OS readings,
threading the sampler state; returns the produced snapshots in call
order. -/
def runSnapshots (self : SystemSampler) : List OSReading → List Snapshot
  | [] => []
  | r :: rs =>
    let p := self.snapshot r
    p.1 :: runSnapshots p.2 rs

/-! ## Queue messages and the collector loop -/

/-- A value travelling through `self.queue`: either the snapshot
dictionary produced by `SystemSampler.snapshot` (line 312) or the error
sentinel dictionary built at line 314. -/
inductive QMsg where
  | snap (s : Snapshot)
  | err (timestamp : String) (error : String)
  deriving Repr, DecidableEq

/-- The top-level keys of a queued dictionary: a successful snapshot has
exactly the keys of the literal at lines 124-154, an error sentinel
exactly the keys of the literal at line 314. -/
def topKeys : QMsg → List String
  | .snap _ =>
    ["timestamp", "platform", "cpu", "memory", "disk", "network", "processes"]
  | .err _ _ => ["timestamp", "error"]

/-- The consumer's dispatch test `"error" in s` (line 333). -/
def hasErrorKey (m : QMsg) : Bool :=
  (topKeys m).contains "error"

/-- Whether a queued message is the error sentinel, by construction. -/
def QMsg.isErr : QMsg → Bool
  | .snap _ => false
  | .err _ _ => true

/-- The `s["error"]` lookup (line 334); `""` on a snapshot, where the
key is absent (the dispatch never reaches it there, see C10). -/
def QMsg.errorMsg : QMsg → String
  | .snap _ => ""
  | .err _ e => e

/-- One iteration of the collector loop body (lines 309-315): a
successful `snapshot()` result is enqueued as-is; an exception with
message `e` is caught and enqueued as `{"timestamp": now_iso(),
"error": str(e)}`.  This function is total: the loop body never
propagates the exception. -/
def sampler_thread_step (res : Except String Snapshot) (ts : String) : QMsg :=
  match res with
  | .ok snap => .snap snap
  | .error e => .err ts e

/-! ## The consumer (`VanillaLOOKApp`) -/

/-- `CHART_POINTS = 60` (line 20): the rolling-history cap. -/
def CHART_POINTS : ℕ := 60

/-- The consumer-side state of `VanillaLOOKApp`: the fields assigned in
`__init__` (lines 164-174) that the core paths read or write, plus the
process-tab controls (sort selector, search entry) that
`refresh_processes` reads.  Widgets and the queue object itself stay
outside the state. -/
structure VanillaLOOKApp where
  log_history : List Snapshot
  logging_enabled : Bool
  cpu_history : List ℚ
  mem_history : List ℚ
  time_history : List ℚ
  latest_snapshot : Option Snapshot
  status_var : String
  sort_by : String
  proc_search : String
  deriving Repr, DecidableEq

/-- The state after `__init__` (lines 161-178): empty log and
histories, logging off, no latest snapshot yet (`latest_snapshot` is
first assigned at line 370, which `hasattr` checks model as
`Option.isSome`), status "Ready" (line 290), sort selector "cpu"
(line 269), empty search entry. -/
def initialApp : VanillaLOOKApp :=
  { log_history := []
    logging_enabled := false
    cpu_history := []
    mem_history := []
    time_history := []
    latest_snapshot := none
    status_var := "Ready"
    sort_by := "cpu"
    proc_search := "" }

/-- The in-place `plist.sort(key=..., reverse=True)` of lines 436-439:
a stable descending sort on memory percent when the sort selector reads
`"memory"`, on cpu percent otherwise (`x['...'] or 0` reads `0` for
`None`, exactly `Option.getD 0` on these float-or-None fields).  As in
`procDescLE`, the merge-sort comparator lets `a` precede `b` exactly
when `b`'s key is at most `a`'s, which is Python's stable descending
sort. -/
def sortPlist (key : String) (plist : List ProcEntry) : List ProcEntry :=
  if key == "memory" then
    plist.mergeSort (fun a b => decide (b.memory_percent.getD 0 ≤ a.memory_percent.getD 0))
  else
    plist.mergeSort (fun a b => decide (b.cpu_percent.getD 0 ≤ a.cpu_percent.getD 0))

/-- The use-latest branch of `refresh_processes` (lines 429-431 and
436-439): `plist = snap['processes']` aliases the stored snapshot's
process list, and `plist.sort(...)` re-sorts that list object in place,
so the stored latest snapshot's process list becomes the re-sorted
list.  The later name filtering (lines 440-442) builds a fresh list and
the tree insertion (lines 443-448) is display-only; neither touches the
state. -/
def VanillaLOOKApp.refreshLatest (self : VanillaLOOKApp) : VanillaLOOKApp :=
  match self.latest_snapshot with
  | some snap =>
    let snap2 := { snap with processes := sortPlist self.sort_by snap.processes }
    { self with latest_snapshot := some snap2 }
  | none => self

/-- `refresh_processes` (lines 428-448), restricted to its effect on
program state.  With `use_latest` and a latest snapshot present it is
the in-place re-sort `refreshLatest`; otherwise it calls
`self.sampler.snapshot()` (line 433) — sorting and filtering that
fresh, never-stored snapshot's list — so only the sampler's
previous-counter state advances. -/
def VanillaLOOKApp.refresh_processes (self : VanillaLOOKApp)
    (sampler : SystemSampler) (r : OSReading) (use_latest : Bool) :
    VanillaLOOKApp × SystemSampler :=
  if use_latest && self.latest_snapshot.isSome then
    (self.refreshLatest, sampler)
  else
    let p := sampler.snapshot r
    (self, p.2)

/-- `_apply_snapshot` (lines 332-376) as a state transformer.  The
dispatch is the source's `if "error" in s` test (line 333); on a
sentinel only the status message changes (line 334).  On a snapshot:
the scalars are appended to the three histories (lines 340-343) and all
three are truncated to their last `CHART_POINTS` entries when the time
history exceeds the cap (lines 344-347, Python `[-60:]` is
`List.drop (length - 60)`); the snapshot is stored as
`latest_snapshot` (line 370); `refresh_processes(use_latest=True)`
(line 371) re-sorts the stored list in place; when logging is enabled
the object appended to `log_history` (line 374) is the same object just
stored and re-sorted, i.e. the current latest snapshot; finally the
status is set (line 376).  The `time.time()` value of line 340 is the
explicit input `ts`. -/
def VanillaLOOKApp.apply_snapshot (self : VanillaLOOKApp) (s : QMsg) (ts : ℚ) :
    VanillaLOOKApp :=
  if hasErrorKey s then
    { self with status_var := "Sampler error: " ++ s.errorMsg }
  else
    match s with
    | .err _ _ => self
    | .snap s =>
      let cpu_total := s.cpu.total_percent
      let mem_percent := s.memory.virtual.percent
      let time_history := self.time_history ++ [ts]
      let cpu_history := self.cpu_history ++ [cpu_total]
      let mem_history := self.mem_history ++ [mem_percent]
      let truncate := time_history.length > CHART_POINTS
      let time_history :=
        if truncate then time_history.drop (time_history.length - CHART_POINTS)
        else time_history
      let cpu_history :=
        if truncate then cpu_history.drop (cpu_history.length - CHART_POINTS)
        else cpu_history
      let mem_history :=
        if truncate then mem_history.drop (mem_history.length - CHART_POINTS)
        else mem_history
      let st1 :=
        { self with
          time_history := time_history
          cpu_history := cpu_history
          mem_history := mem_history
          latest_snapshot := some s }
      let st2 := st1.refreshLatest
      let st3 :=
        if self.logging_enabled then
          { st2 with log_history := st2.log_history ++ st2.latest_snapshot.toList }
        else st2
      { st3 with status_var := "Last update: " ++ s.timestamp }

/-- `toggle_logging` (lines 405-408): flip the flag, set the status
from the new value (button text is display-only). -/
def VanillaLOOKApp.toggle_logging (self : VanillaLOOKApp) : VanillaLOOKApp :=
  let enabled := !self.logging_enabled
  { self with
    logging_enabled := enabled
    status_var := if enabled then "Logging started" else "Logging stopped" }

/-- Applying a list of drained snapshot messages in FIFO order, with
each element paired with its `time.time()` value. -/
def applyRun (self : VanillaLOOKApp) (l : List (Snapshot × ℚ)) : VanillaLOOKApp :=
  l.foldl (fun st p => st.apply_snapshot (.snap p.1) p.2) self

/-- A consumer-side event: an applied snapshot or a logging toggle. -/
inductive Cmd where
  | apply (s : Snapshot) (ts : ℚ)
  | toggle
  deriving Repr

/-- One consumer-side event step. -/
def applyCmd (self : VanillaLOOKApp) : Cmd → VanillaLOOKApp
  | .apply s ts => self.apply_snapshot (.snap s) ts
  | .toggle => self.toggle_logging

/-- A sequence of consumer-side events. -/
def runCmds (self : VanillaLOOKApp) (cs : List Cmd) : VanillaLOOKApp :=
  cs.foldl applyCmd self

/-! ## Concrete values used by witnesses and counterexamples -/

/-- A concrete initial sampler baseline. -/
def sampler0 : SystemSampler :=
  { prev_net := { bytes_sent := 0, bytes_recv := 0, packets_sent := 0, packets_recv := 0 }
    prev_disk := { read_bytes := 0, write_bytes := 0 } }

/-- A concrete OS reading. -/
def reading1 : OSReading :=
  { t := "2024-01-01 00:00:01"
    cpu_percent := 10
    percore := [10]
    cpu_count := 1
    cpu_freq := none
    load_avg := (0, 0, 0)
    virtual := { total := 100, available := 50, used := 40, free := 10, percent := 40 }
    swap := { total := 10, used := 0, free := 10, percent := 0 }
    partitions := []
    disk_io := { read_bytes := 100, write_bytes := 200 }
    net_io := { bytes_sent := 1000, bytes_recv := 2000, packets_sent := 10, packets_recv := 20 }
    platform := { system := "Linux", node := "host", release := "6.1", version := "v", machine := "arm", processor := "p" }
    procs := [] }

/-- A second concrete OS reading with advanced counters. -/
def reading2 : OSReading :=
  { reading1 with
    t := "2024-01-01 00:00:02"
    disk_io := { read_bytes := 150, write_bytes := 260 }
    net_io := { bytes_sent := 1500, bytes_recv := 2600, packets_sent := 12, packets_recv := 24 } }

/-- A process with cpu 2%, memory 1%. -/
def proc1 : ProcEntry :=
  { pid := some 1, name := some "a", username := none, cpu_percent := some 2
    memory_percent := some 1, memory_rss := none, status := none }

/-- A process with cpu 1%, memory 5%. -/
def proc2 : ProcEntry :=
  { pid := some 2, name := some "b", username := none, cpu_percent := some 1
    memory_percent := some 5, memory_rss := none, status := none }

/-- A concrete snapshot whose process list `[proc1, proc2]` is in
`(cpu_percent, memory_percent)`-descending order, as `snapshot()`
produces it. -/
def snap1 : Snapshot :=
  { timestamp := "2024-01-01 00:00:01"
    platform := { system := "Linux", node := "host", release := "6.1", version := "v", machine := "arm", processor := "p" }
    cpu := { total_percent := 10, per_core := [10], count := 1, freq := none, load_avg := (0, 0, 0) }
    memory :=
      { virtual := { total := 100, available := 50, used := 40, free := 10, percent := 40 }
        swap := { total := 10, used := 0, free := 10, percent := 0 } }
    disk := { partitions := [], io := { read_bytes := 100, write_bytes := 200 } }
    network :=
      { io := { bytes_sent := 1000, bytes_recv := 2000, packets_sent := 10, packets_recv := 20 }
        rates := { bytes_sent_per_sec := none, bytes_recv_per_sec := none } }
    processes := [proc1, proc2] }

/-- A consumer state holding `snap1` as latest snapshot, with the
process-tab sort selector on "memory". -/
def app1 : VanillaLOOKApp :=
  { initialApp with latest_snapshot := some snap1, sort_by := "memory" }

/-- The three-histories well-formedness invariant maintained by the
consumer: equal lengths, at most the cap. -/
def HistOK (st : VanillaLOOKApp) : Prop :=
  st.cpu_history.length = st.time_history.length ∧
  st.mem_history.length = st.time_history.length ∧
  st.time_history.length ≤ CHART_POINTS


/-! # Theorems -/

/-- C7: `human_bytes` converts a byte count by binary (1024-based) unit
steps with labels `'' K M G T P E Z Y` and one decimal place, producing
exactly `{value:.1f}{unit}B`; in particular `human_bytes(None) = "N/A"`,
`human_bytes(0) = "0.0B"`, `human_bytes(1536) = "1.5KB"`, and
`human_bytes(1073741824) = "1.0GB"`.  The last two conjuncts exhibit
the 1024-based stepping with the `''` and `K` labels on whole unit
ranges. -/
theorem human_bytes_spec :
    human_bytes none = "N/A" ∧
    human_bytes (some 0) = "0.0B" ∧
    human_bytes (some 1536) = "1.5KB" ∧
    human_bytes (some 1073741824) = "1.0GB" ∧
    (∀ q : ℚ, 0 ≤ q → q < 1024 → human_bytes (some q) = formatFixed1 q ++ "B") ∧
    (∀ q : ℚ, 1024 ≤ q → q < 1024 * 1024 →
      human_bytes (some q) = formatFixed1 (q / 1024) ++ "KB") := by
  refine ⟨rfl, ?_, ?_, ?_, ?_, ?_⟩
  · norm_num [human_bytes, human_bytesWith, humanBytesLoop, byteUnits, formatFixed1, round_eq]
    rfl
  · norm_num [human_bytes, human_bytesWith, humanBytesLoop, byteUnits, formatFixed1, round_eq,
      abs_of_nonneg]
    rfl
  · norm_num [human_bytes, human_bytesWith, humanBytesLoop, byteUnits, formatFixed1, round_eq,
      abs_of_nonneg]
    rfl
  · intro q h0 h1
    have habs : |q| < 1024 := abs_lt.mpr ⟨by linarith, h1⟩
    simp only [human_bytes, human_bytesWith, byteUnits, humanBytesLoop, if_pos habs]
    rw [String.append_empty]
  · intro q h1 h2
    have h0 : (0 : ℚ) ≤ q := by linarith
    have hn : ¬ |q| < 1024 := by rw [abs_of_nonneg h0]; linarith
    have hd : |q / 1024| < 1024 := by
      rw [abs_of_nonneg (by positivity)]
      rw [div_lt_iff₀ (by norm_num : (0 : ℚ) < 1024)]
      linarith
    simp only [human_bytes, human_bytesWith, byteUnits, humanBytesLoop, if_neg hn, if_pos hd]
    rw [String.append_assoc]
    rfl

/-- C7 witness: the general `''`-label conjunct of `human_bytes_spec`
instantiated at 512. -/
theorem human_bytes_witness :
    (0 : ℚ) ≤ 512 ∧ (512 : ℚ) < 1024 ∧
    human_bytes (some 512) = formatFixed1 512 ++ "B" :=
  ⟨by norm_num, by norm_num,
    human_bytes_spec.2.2.2.2.1 512 (by norm_num) (by norm_num)⟩

/-- C1: every rate field equals `(current - previous) / 1.0` where the
previous counters are the sampler's stored state, and is non-negative
whenever the cumulative counters are monotone non-decreasing. -/
theorem net_disk_rates_spec :
    (∀ (self : SystemSampler) (r : OSReading),
      (self.snapshot r).1.network.rates = net_delta self.prev_net r.net_io) ∧
    (∀ prev cur : NetCounters,
      (net_delta prev cur).bytes_sent_per_sec =
        some ((cur.bytes_sent : ℚ) - (prev.bytes_sent : ℚ)) ∧
      (net_delta prev cur).bytes_recv_per_sec =
        some ((cur.bytes_recv : ℚ) - (prev.bytes_recv : ℚ))) ∧
    (∀ prev cur : DiskCounters,
      (disk_delta prev cur).read_bytes_per_sec =
        some ((cur.read_bytes : ℚ) - (prev.read_bytes : ℚ)) ∧
      (disk_delta prev cur).write_bytes_per_sec =
        some ((cur.write_bytes : ℚ) - (prev.write_bytes : ℚ))) ∧
    (∀ prev cur : NetCounters, prev.bytes_sent ≤ cur.bytes_sent →
      ∀ v : ℚ, (net_delta prev cur).bytes_sent_per_sec = some v → 0 ≤ v) ∧
    (∀ prev cur : NetCounters, prev.bytes_recv ≤ cur.bytes_recv →
      ∀ v : ℚ, (net_delta prev cur).bytes_recv_per_sec = some v → 0 ≤ v) ∧
    (∀ prev cur : DiskCounters, prev.read_bytes ≤ cur.read_bytes →
      ∀ v : ℚ, (disk_delta prev cur).read_bytes_per_sec = some v → 0 ≤ v) ∧
    (∀ prev cur : DiskCounters, prev.write_bytes ≤ cur.write_bytes →
      ∀ v : ℚ, (disk_delta prev cur).write_bytes_per_sec = some v → 0 ≤ v) := by
  refine ⟨fun self r => rfl, ?_, ?_, ?_, ?_, ?_, ?_⟩
  · intro prev cur
    constructor <;> norm_num [net_delta, time_interval]
  · intro prev cur
    constructor <;> norm_num [disk_delta, time_interval]
  all_goals
    intro prev cur h v hv
    norm_num [net_delta, disk_delta, time_interval] at hv
    subst hv
    simp only [sub_nonneg]
    exact_mod_cast h

/-- C1 witness: the monotone-counter conjuncts of `net_disk_rates_spec`
at concrete counters 3 ≤ 10, where the rate is 7. -/
theorem net_disk_rates_witness :
    (net_delta ⟨3, 4, 0, 0⟩ ⟨10, 9, 0, 0⟩).bytes_sent_per_sec = some 7 ∧
    (0 : ℚ) ≤ 7 := by
  refine ⟨by norm_num [net_delta, time_interval], ?_⟩
  exact net_disk_rates_spec.2.2.2.1 ⟨3, 4, 0, 0⟩ ⟨10, 9, 0, 0⟩ (by norm_num) 7
    (by norm_num [net_delta, time_interval])

/-- C4 counterexample: on a permission-denied usage lookup the
partition entry's usage field is NOT `none`: the code stores a usage
dictionary whose four values are all `None`.  Concrete failing input:
partition `/dev/sda1` with `psutil.disk_usage` raising
`PermissionError`. -/
theorem partition_usage_counterexample :
    (partitionEntry ⟨"/dev/sda1", "/", "ext4", "rw"⟩ none).usage ≠ none ∧
    (partitionEntry ⟨"/dev/sda1", "/", "ext4", "rw"⟩ none).usage =
      some ⟨none, none, none, none⟩ := by
  constructor <;> simp [partitionEntry]

/-- C4 (amended): when a partition's usage lookup fails with a
permission error, the snapshot still contains an entry for that
partition whose usage object has all four fields (total/used/free/
percent) equal to `none` — the usage field itself is present, not
absent; the identification fields are copied unchanged; usage is all
populated or all `none`, never partial; and each partition of the list
is produced independently by the same total function, so the failure
never escalates. -/
theorem partition_usage_amended :
    (∀ p : PartitionInfo,
      (partitionEntry p none).usage = some ⟨none, none, none, none⟩) ∧
    (∀ (p : PartitionInfo) (u : Option DiskUsage),
      (partitionEntry p u).device = p.device ∧
      (partitionEntry p u).mountpoint = p.mountpoint ∧
      (partitionEntry p u).fstype = p.fstype ∧
      (partitionEntry p u).opts = p.opts) ∧
    (∀ (p : PartitionInfo) (u : Option DiskUsage) (d : UsageDict),
      (partitionEntry p u).usage = some d →
      (d.total.isSome ∧ d.used.isSome ∧ d.free.isSome ∧ d.percent.isSome) ∨
      (d.total = none ∧ d.used = none ∧ d.free = none ∧ d.percent = none)) ∧
    (∀ (self : SystemSampler) (r : OSReading),
      (self.snapshot r).1.disk.partitions =
        r.partitions.map (fun q => partitionEntry q.1 q.2)) := by
  refine ⟨fun p => rfl, fun p u => ⟨rfl, rfl, rfl, rfl⟩, ?_, fun self r => rfl⟩
  intro p u d h
  cases u with
  | none =>
    simp [partitionEntry] at h
    subst h
    right
    exact ⟨rfl, rfl, rfl, rfl⟩
  | some w =>
    simp [partitionEntry] at h
    subst h
    left
    simp

/-- C4 witness: the all-or-nothing conjunct of `partition_usage_amended`
at a concrete successful usage lookup. -/
theorem partition_usage_witness :
    ((⟨some 1, some 2, some 3, some 4⟩ : UsageDict).total.isSome ∧
     (⟨some 1, some 2, some 3, some 4⟩ : UsageDict).used.isSome ∧
     (⟨some 1, some 2, some 3, some 4⟩ : UsageDict).free.isSome ∧
     (⟨some 1, some 2, some 3, some 4⟩ : UsageDict).percent.isSome) ∨
    ((⟨some 1, some 2, some 3, some 4⟩ : UsageDict).total = none ∧
     (⟨some 1, some 2, some 3, some 4⟩ : UsageDict).used = none ∧
     (⟨some 1, some 2, some 3, some 4⟩ : UsageDict).free = none ∧
     (⟨some 1, some 2, some 3, some 4⟩ : UsageDict).percent = none) :=
  partition_usage_amended.2.2.1 ⟨"/dev/sda1", "/", "ext4", "rw"⟩
    (some ⟨1, 2, 3, 4⟩) ⟨some 1, some 2, some 3, some 4⟩ (by simp [partitionEntry])

/-- C5: any exception raised inside `snapshot()` is caught by the
collector loop and enqueued as an error sentinel carrying the message
and a timestamp on the same queue as snapshots (the loop body is a
total function, so it never propagates); the consumer, on draining a
sentinel, only sets the status message and leaves the histories, the
log list and the latest snapshot unchanged. -/
theorem error_sentinel_spec :
    (∀ (s : Snapshot) (ts : String), sampler_thread_step (.ok s) ts = QMsg.snap s) ∧
    (∀ (e ts : String), sampler_thread_step (.error e) ts = QMsg.err ts e) ∧
    (∀ (st : VanillaLOOKApp) (ts e : String) (t : ℚ),
      (st.apply_snapshot (.err ts e) t).status_var = "Sampler error: " ++ e ∧
      (st.apply_snapshot (.err ts e) t).time_history = st.time_history ∧
      (st.apply_snapshot (.err ts e) t).cpu_history = st.cpu_history ∧
      (st.apply_snapshot (.err ts e) t).mem_history = st.mem_history ∧
      (st.apply_snapshot (.err ts e) t).log_history = st.log_history ∧
      (st.apply_snapshot (.err ts e) t).latest_snapshot = st.latest_snapshot ∧
      (st.apply_snapshot (.err ts e) t).logging_enabled = st.logging_enabled) := by
  refine ⟨fun s ts => rfl, fun e ts => rfl, ?_⟩
  intro st ts e t
  refine ⟨?_, rfl, rfl, rfl, rfl, rfl, rfl⟩
  rfl

/-- C10: a successful snapshot's top-level keys never include
`"error"`, an error sentinel's keys are exactly `"timestamp"` and
`"error"`, so the consumer's `"error" in s` test classifies every
queued value by construction: it applies every successful snapshot
(storing it and setting the last-update status) and turns exactly the
sentinels into status messages. -/
theorem queue_dispatch_spec :
    (∀ s : Snapshot, hasErrorKey (QMsg.snap s) = false) ∧
    (∀ s : Snapshot, topKeys (QMsg.snap s) =
      ["timestamp", "platform", "cpu", "memory", "disk", "network", "processes"]) ∧
    (∀ ts e : String, topKeys (QMsg.err ts e) = ["timestamp", "error"]) ∧
    (∀ ts e : String, hasErrorKey (QMsg.err ts e) = true) ∧
    (∀ m : QMsg, hasErrorKey m = m.isErr) ∧
    (∀ (st : VanillaLOOKApp) (s : Snapshot) (t : ℚ),
      (st.apply_snapshot (.snap s) t).latest_snapshot.map (fun x => x.timestamp) =
        some s.timestamp ∧
      (st.apply_snapshot (.snap s) t).status_var = "Last update: " ++ s.timestamp) ∧
    (∀ (st : VanillaLOOKApp) (ts e : String) (t : ℚ),
      st.apply_snapshot (.err ts e) t =
        { st with status_var := "Sampler error: " ++ e }) := by
  refine ⟨fun s => rfl, fun s => rfl, fun ts e => rfl, fun ts e => rfl, ?_, ?_, fun st ts e t => rfl⟩
  · intro m
    cases m <;> rfl
  · intro st s t
    constructor
    · cases hl : st.logging_enabled <;>
        simp [VanillaLOOKApp.apply_snapshot, hasErrorKey, topKeys,
          VanillaLOOKApp.refreshLatest, hl]
    · cases hl : st.logging_enabled <;>
        simp [VanillaLOOKApp.apply_snapshot, hasErrorKey, topKeys,
          VanillaLOOKApp.refreshLatest, hl]

/-- Unfolding of the Boolean lexicographic pair comparison. -/
lemma pairLE_iff (p q : ℚ × ℚ) :
    pairLE p q = true ↔ p.1 < q.1 ∨ (p.1 = q.1 ∧ p.2 ≤ q.2) := by
  simp [pairLE]

/-- The lexicographic pair comparison is transitive. -/
lemma pairLE_trans {p q r : ℚ × ℚ} (h1 : pairLE p q = true)
    (h2 : pairLE q r = true) : pairLE p r = true := by
  rw [pairLE_iff] at h1 h2 ⊢
  rcases h1 with h1 | ⟨e1, l1⟩ <;> rcases h2 with h2 | ⟨e2, l2⟩
  · exact Or.inl (lt_trans h1 h2)
  · exact Or.inl (e2 ▸ h1)
  · exact Or.inl (e1 ▸ h2)
  · exact Or.inr ⟨e1.trans e2, le_trans l1 l2⟩

/-- The lexicographic pair comparison is total. -/
lemma pairLE_total (p q : ℚ × ℚ) : pairLE p q || pairLE q p := by
  rw [Bool.or_eq_true, pairLE_iff, pairLE_iff]
  rcases lt_trichotomy p.1 q.1 with h | h | h
  · exact Or.inl (Or.inl h)
  · rcases le_total p.2 q.2 with h2 | h2
    · exact Or.inl (Or.inr ⟨h, h2⟩)
    · exact Or.inr (Or.inr ⟨h.symm, h2⟩)
  · exact Or.inr (Or.inl h)

/-- C3: the process list of every produced snapshot has at most 50
entries and adjacent entries are in descending lexicographic order of
`(cpu_percent, memory_percent)` with unavailable values read as 0. -/
theorem process_list_spec (procs : List ProcEntry) :
    (procsSorted procs).length ≤ 50 ∧
    List.Chain' (fun a b =>
      (procKey b).1 < (procKey a).1 ∨
      ((procKey b).1 = (procKey a).1 ∧ (procKey b).2 ≤ (procKey a).2))
      (procsSorted procs) ∧
    (∀ (self : SystemSampler) (r : OSReading),
      (self.snapshot r).1.processes = procsSorted r.procs) := by
  refine ⟨List.length_take_le _ _, ?_, fun self r => rfl⟩
  have hs := @List.sorted_mergeSort ProcEntry procDescLE
    (fun a b c hab hbc => pairLE_trans hbc hab)
    (fun a b => pairLE_total (procKey b) (procKey a)) procs
  have ht := List.Pairwise.sublist (List.take_sublist 50 (procs.mergeSort procDescLE)) hs
  exact ht.chain'.imp (fun a b hab => (pairLE_iff _ _).mp hab)

/-- Truncating to the last `n` after an append absorbs an earlier
truncation to the last `n`. -/
lemma rtake_append_rtake (m k : List α) (n : ℕ) :
    ((m.rtake n) ++ k).rtake n = (m ++ k).rtake n := by
  rw [List.rtake_eq_reverse_take_reverse, List.rtake_eq_reverse_take_reverse,
    List.rtake_eq_reverse_take_reverse, List.reverse_append, List.reverse_reverse,
    List.reverse_append]
  congr 1
  rw [List.take_append_eq_append_take, List.take_append_eq_append_take, List.take_take]
  congr 1
  exact congrArg (fun j => List.take j m.reverse) (Nat.min_eq_left (Nat.sub_le _ _))

/-- `_apply_snapshot` on a successful snapshot, written out as a single
record update: the three histories are appended to and kept to their
last `CHART_POINTS` entries, the re-sorted snapshot becomes the latest
snapshot (and, when logging is enabled, the logged entry — in the source
the stored, in-place-sorted object and the logged object are the same),
and the status is set. -/
lemma apply_snapshot_snap_eq (st : VanillaLOOKApp) (s : Snapshot) (ts : ℚ)
    (hlc : st.cpu_history.length = st.time_history.length)
    (hlm : st.mem_history.length = st.time_history.length) :
    st.apply_snapshot (.snap s) ts =
      { st with
        time_history := (st.time_history ++ [ts]).rtake CHART_POINTS
        cpu_history := (st.cpu_history ++ [s.cpu.total_percent]).rtake CHART_POINTS
        mem_history := (st.mem_history ++ [s.memory.virtual.percent]).rtake CHART_POINTS
        latest_snapshot := some { s with processes := sortPlist st.sort_by s.processes }
        log_history :=
          if st.logging_enabled then
            st.log_history ++ [{ s with processes := sortPlist st.sort_by s.processes }]
          else st.log_history
        status_var := "Last update: " ++ s.timestamp } := by
  have hlen : (st.cpu_history ++ [s.cpu.total_percent]).length =
      (st.time_history ++ [ts]).length := by simp [hlc]
  have hlen2 : (st.mem_history ++ [s.memory.virtual.percent]).length =
      (st.time_history ++ [ts]).length := by simp [hlm]
  have hne : hasErrorKey (QMsg.snap s) = false := rfl
  cases h : st.logging_enabled <;>
    rcases lt_or_le CHART_POINTS (st.time_history ++ [ts]).length with hgt | hle
  all_goals simp only [VanillaLOOKApp.apply_snapshot, VanillaLOOKApp.refreshLatest, h, hne,
    Bool.false_eq_true, if_false, Option.toList]
  · simp [hgt, List.rtake]
    simp only [List.length_append, List.length_cons, List.length_nil] at hgt
    exact ⟨fun hh => absurd hh (by omega), fun hh => absurd hh (by omega),
      fun hh => absurd hh (by omega)⟩
  · have h1 : ¬ (st.time_history ++ [ts]).length > CHART_POINTS := by omega
    have e1 : (st.time_history ++ [ts]).length - CHART_POINTS = 0 := by omega
    have e2 : (st.cpu_history ++ [s.cpu.total_percent]).length - CHART_POINTS = 0 := by
      rw [hlen]; omega
    have e3 : (st.mem_history ++ [s.memory.virtual.percent]).length - CHART_POINTS = 0 := by
      rw [hlen2]; omega
    simp [h1, List.rtake, e1, e2, e3]
    simp only [List.length_append, List.length_cons, List.length_nil] at hle
    have c1 : st.cpu_history.length + 1 - CHART_POINTS = 0 := by omega
    have c2 : st.mem_history.length + 1 - CHART_POINTS = 0 := by omega
    have c3 : st.time_history.length + 1 - CHART_POINTS = 0 := by omega
    refine ⟨fun hh => ?_, fun hh => ?_, fun hh => ?_⟩
    · rw [c1, List.drop_zero]
    · rw [c2, List.drop_zero]
    · rw [c3, List.drop_zero]
  · simp [hgt, List.rtake]
    simp only [List.length_append, List.length_cons, List.length_nil] at hgt
    exact ⟨fun hh => absurd hh (by omega), fun hh => absurd hh (by omega),
      fun hh => absurd hh (by omega)⟩
  · have h1 : ¬ (st.time_history ++ [ts]).length > CHART_POINTS := by omega
    have e1 : (st.time_history ++ [ts]).length - CHART_POINTS = 0 := by omega
    have e2 : (st.cpu_history ++ [s.cpu.total_percent]).length - CHART_POINTS = 0 := by
      rw [hlen]; omega
    have e3 : (st.mem_history ++ [s.memory.virtual.percent]).length - CHART_POINTS = 0 := by
      rw [hlen2]; omega
    simp [h1, List.rtake, e1, e2, e3]
    simp only [List.length_append, List.length_cons, List.length_nil] at hle
    have c1 : st.cpu_history.length + 1 - CHART_POINTS = 0 := by omega
    have c2 : st.mem_history.length + 1 - CHART_POINTS = 0 := by omega
    have c3 : st.time_history.length + 1 - CHART_POINTS = 0 := by omega
    refine ⟨fun hh => ?_, fun hh => ?_, fun hh => ?_⟩
    · rw [c1, List.drop_zero]
    · rw [c2, List.drop_zero]
    · rw [c3, List.drop_zero]
lemma length_rtake (l : List α) (n : ℕ) : (l.rtake n).length = min n l.length := by
  simp [List.rtake]
  omega

lemma rtake_of_length_le {l : List α} {n : ℕ} (h : l.length ≤ n) : l.rtake n = l := by
  simp [List.rtake, Nat.sub_eq_zero_of_le h]

lemma getLast?_cons_or (a : α) (m : List α) (x : Option α) :
    ((a :: m).getLast?).or x = (m.getLast?).or (some a) := by
  rw [List.getLast?_cons]
  cases h : m.getLast? <;> simp

lemma applyRun_spec (l : List (Snapshot × ℚ)) :
    ∀ st : VanillaLOOKApp, HistOK st →
      HistOK (applyRun st l) ∧
      (applyRun st l).time_history =
        (st.time_history ++ l.map (fun p => p.2)).rtake CHART_POINTS ∧
      (applyRun st l).cpu_history =
        (st.cpu_history ++ l.map (fun p => p.1.cpu.total_percent)).rtake CHART_POINTS ∧
      (applyRun st l).mem_history =
        (st.mem_history ++ l.map (fun p => p.1.memory.virtual.percent)).rtake CHART_POINTS ∧
      (applyRun st l).logging_enabled = st.logging_enabled ∧
      (applyRun st l).sort_by = st.sort_by ∧
      (applyRun st l).latest_snapshot.map (fun x => x.timestamp) =
        ((l.map (fun p => p.1.timestamp)).getLast?).or
          (st.latest_snapshot.map (fun x => x.timestamp)) ∧
      (st.logging_enabled = false → (applyRun st l).log_history = st.log_history) ∧
      (st.logging_enabled = true →
        (applyRun st l).log_history.map (fun x => x.timestamp) =
          st.log_history.map (fun x => x.timestamp) ++ l.map (fun p => p.1.timestamp) ∧
        (applyRun st l).log_history.length = st.log_history.length + l.length) := by
  induction l with
  | nil =>
    intro st hok
    obtain ⟨h1, h2, h3⟩ := hok
    refine ⟨⟨h1, h2, h3⟩, ?_, ?_, ?_, rfl, rfl, ?_, fun _ => rfl,
      fun _ => ⟨by simp [applyRun], rfl⟩⟩
    · simp [applyRun, rtake_of_length_le h3]
    · simp [applyRun, rtake_of_length_le (show st.cpu_history.length ≤ CHART_POINTS by omega)]
    · simp [applyRun, rtake_of_length_le (show st.mem_history.length ≤ CHART_POINTS by omega)]
    · simp [applyRun]
  | cons p l' ih =>
    intro st hok
    obtain ⟨hlc, hlm, hle⟩ := hok
    have hstep := apply_snapshot_snap_eq st p.1 p.2 hlc hlm
    have hrun : applyRun st (p :: l') =
        applyRun (st.apply_snapshot (.snap p.1) p.2) l' := rfl
    set st' := st.apply_snapshot (.snap p.1) p.2 with hst'
    have hok' : HistOK st' := by
      rw [hstep]
      refine ⟨?_, ?_, ?_⟩ <;> simp [length_rtake] <;> omega
    obtain ⟨ih1, ih2, ih3, ih4, ih5, ih6, ih7, ih8, ih9⟩ := ih st' hok'
    rw [hrun]
    refine ⟨ih1, ?_, ?_, ?_, ?_, ?_, ?_, ?_, ?_⟩
    · rw [ih2, hstep]
      simp only
      rw [rtake_append_rtake]
      simp [List.append_assoc]
    · rw [ih3, hstep]
      simp only
      rw [rtake_append_rtake]
      simp [List.append_assoc]
    · rw [ih4, hstep]
      simp only
      rw [rtake_append_rtake]
      simp [List.append_assoc]
    · rw [ih5, hstep]
    · rw [ih6, hstep]
    · rw [ih7, hstep]
      simp [getLast?_cons_or]
    · intro hoff
      have h8 := ih8 (by rw [hstep]; simp [hoff])
      rw [h8, hstep]
      simp [hoff]
    · intro hon
      have hon2 : st.apply_snapshot (QMsg.snap p.1) p.2 = st' := rfl
      have hon' : st'.logging_enabled = true := by rw [hstep]; simp [hon]
      obtain ⟨h9a, h9b⟩ := ih9 hon'
      constructor
      · rw [h9a, hstep]
        simp [hon, List.append_assoc]
      · rw [h9b, hstep]
        simp [hon]
        omega
end VanillaLOOK
namespace VanillaLOOK
/-- C2: folding any list of successfully applied snapshots from the
initial state, the three rolling histories have length `min N 60`,
always have equal length, and contain exactly the per-snapshot values of
the most recent 60 applied snapshots in application order. -/
theorem rolling_history_spec (l : List (Snapshot × ℚ)) :
    (applyRun initialApp l).time_history.length = min l.length CHART_POINTS ∧
    (applyRun initialApp l).cpu_history.length = (applyRun initialApp l).time_history.length ∧
    (applyRun initialApp l).mem_history.length = (applyRun initialApp l).time_history.length ∧
    (applyRun initialApp l).time_history =
      (l.map (fun p => p.2)).drop (l.length - CHART_POINTS) ∧
    (applyRun initialApp l).cpu_history =
      (l.map (fun p => p.1.cpu.total_percent)).drop (l.length - CHART_POINTS) ∧
    (applyRun initialApp l).mem_history =
      (l.map (fun p => p.1.memory.virtual.percent)).drop (l.length - CHART_POINTS) := by
  have h0 : HistOK initialApp := ⟨rfl, rfl, by simp [initialApp, CHART_POINTS]⟩
  obtain ⟨hok, h2, h3, h4, -, -, -, -, -⟩ := applyRun_spec l initialApp h0
  refine ⟨?_, ?_, ?_, ?_, ?_, ?_⟩
  · rw [h2]; simp [initialApp, length_rtake]; omega
  · rw [h3, h2]; simp [initialApp, length_rtake]
  · rw [h4, h2]; simp [initialApp, length_rtake]
  · rw [h2]; simp [initialApp, List.rtake]
  · rw [h3]; simp [initialApp, List.rtake]
  · rw [h4]; simp [initialApp, List.rtake]
/-- `toggle_logging` changes only the flag and the status message. -/
lemma toggle_fields (st : VanillaLOOKApp) :
    (st.toggle_logging).time_history = st.time_history ∧
    (st.toggle_logging).cpu_history = st.cpu_history ∧
    (st.toggle_logging).mem_history = st.mem_history ∧
    (st.toggle_logging).log_history = st.log_history ∧
    (st.toggle_logging).latest_snapshot = st.latest_snapshot ∧
    (st.toggle_logging).sort_by = st.sort_by ∧
    (st.toggle_logging).logging_enabled = !st.logging_enabled :=
  ⟨rfl, rfl, rfl, rfl, rfl, rfl, rfl⟩

/-- C6: starting from the initial state (logging off), applying `xs`,
toggling logging on, applying `ys`, toggling off, and applying `zs`
leaves exactly one log entry per snapshot of `ys` (none for `xs`/`zs`),
while the rolling histories and the latest snapshot reflect all
`K = |xs|+|ys|+|zs|` applied snapshots. -/
theorem logging_toggle_spec (xs ys zs : List (Snapshot × ℚ)) :
    (runCmds initialApp (xs.map (fun p => Cmd.apply p.1 p.2) ++ [Cmd.toggle] ++
        ys.map (fun p => Cmd.apply p.1 p.2) ++ [Cmd.toggle] ++
        zs.map (fun p => Cmd.apply p.1 p.2))).log_history.length = ys.length ∧
    (runCmds initialApp (xs.map (fun p => Cmd.apply p.1 p.2) ++ [Cmd.toggle] ++
        ys.map (fun p => Cmd.apply p.1 p.2) ++ [Cmd.toggle] ++
        zs.map (fun p => Cmd.apply p.1 p.2))).log_history.map (fun x => x.timestamp) =
      ys.map (fun p => p.1.timestamp) ∧
    (runCmds initialApp (xs.map (fun p => Cmd.apply p.1 p.2) ++ [Cmd.toggle] ++
        ys.map (fun p => Cmd.apply p.1 p.2) ++ [Cmd.toggle] ++
        zs.map (fun p => Cmd.apply p.1 p.2))).time_history =
      ((xs ++ ys ++ zs).map (fun p => p.2)).drop ((xs ++ ys ++ zs).length - CHART_POINTS) ∧
    (runCmds initialApp (xs.map (fun p => Cmd.apply p.1 p.2) ++ [Cmd.toggle] ++
        ys.map (fun p => Cmd.apply p.1 p.2) ++ [Cmd.toggle] ++
        zs.map (fun p => Cmd.apply p.1 p.2))).cpu_history =
      ((xs ++ ys ++ zs).map (fun p => p.1.cpu.total_percent)).drop
        ((xs ++ ys ++ zs).length - CHART_POINTS) ∧
    (runCmds initialApp (xs.map (fun p => Cmd.apply p.1 p.2) ++ [Cmd.toggle] ++
        ys.map (fun p => Cmd.apply p.1 p.2) ++ [Cmd.toggle] ++
        zs.map (fun p => Cmd.apply p.1 p.2))).mem_history =
      ((xs ++ ys ++ zs).map (fun p => p.1.memory.virtual.percent)).drop
        ((xs ++ ys ++ zs).length - CHART_POINTS) ∧
    (runCmds initialApp (xs.map (fun p => Cmd.apply p.1 p.2) ++ [Cmd.toggle] ++
        ys.map (fun p => Cmd.apply p.1 p.2) ++ [Cmd.toggle] ++
        zs.map (fun p => Cmd.apply p.1 p.2))).latest_snapshot.map (fun x => x.timestamp) =
      ((xs ++ ys ++ zs).map (fun p => p.1.timestamp)).getLast? := by
  have h0 : HistOK initialApp := ⟨rfl, rfl, by simp [initialApp, CHART_POINTS]⟩
  have hsplit :
      runCmds initialApp (xs.map (fun p => Cmd.apply p.1 p.2) ++ [Cmd.toggle] ++
        ys.map (fun p => Cmd.apply p.1 p.2) ++ [Cmd.toggle] ++
        zs.map (fun p => Cmd.apply p.1 p.2)) =
      applyRun ((applyRun ((applyRun initialApp xs).toggle_logging) ys).toggle_logging) zs := by
    simp [runCmds, applyRun, List.foldl_append, List.foldl_map, applyCmd]
  rw [hsplit]
  obtain ⟨hok1, ht1, hc1, hm1, hflag1, hsort1, hlat1, hoff1, -⟩ :=
    applyRun_spec xs initialApp h0
  have hok2 : HistOK (applyRun initialApp xs).toggle_logging := hok1
  obtain ⟨hok3, ht3, hc3, hm3, hflag3, hsort3, hlat3, -, hon3⟩ :=
    applyRun_spec ys ((applyRun initialApp xs).toggle_logging) hok2
  have hok4 : HistOK ((applyRun ((applyRun initialApp xs).toggle_logging) ys).toggle_logging) :=
    hok3
  obtain ⟨hok5, ht5, hc5, hm5, hflag5, hsort5, hlat5, hoff5, -⟩ :=
    applyRun_spec zs ((applyRun ((applyRun initialApp xs).toggle_logging) ys).toggle_logging) hok4
  have f1 : (applyRun initialApp xs).logging_enabled = false := hflag1
  have f2 : ((applyRun initialApp xs).toggle_logging).logging_enabled = true := by
    rw [(toggle_fields _).2.2.2.2.2.2, f1]
    rfl
  have f3 : (applyRun ((applyRun initialApp xs).toggle_logging) ys).logging_enabled = true := by
    rw [hflag3]; exact f2
  have f4 : ((applyRun ((applyRun initialApp xs).toggle_logging) ys).toggle_logging).logging_enabled
      = false := by
    rw [(toggle_fields _).2.2.2.2.2.2, f3]
    rfl
  have l1 : (applyRun initialApp xs).log_history = [] := hoff1 rfl
  have l2 : ((applyRun initialApp xs).toggle_logging).log_history = [] := by
    rw [(toggle_fields _).2.2.2.1, l1]
  obtain ⟨l3map, l3len⟩ := hon3 f2
  have l4 : ((applyRun ((applyRun initialApp xs).toggle_logging) ys).toggle_logging).log_history
      = (applyRun ((applyRun initialApp xs).toggle_logging) ys).log_history :=
    (toggle_fields _).2.2.2.1
  have l5 := hoff5 f4
  have e1 : (applyRun initialApp xs).time_history = (xs.map (fun p => p.2)).rtake CHART_POINTS := by
    rw [ht1]; simp [initialApp]
  have e1c : (applyRun initialApp xs).cpu_history =
      (xs.map (fun p => p.1.cpu.total_percent)).rtake CHART_POINTS := by
    rw [hc1]; simp [initialApp]
  have e1m : (applyRun initialApp xs).mem_history =
      (xs.map (fun p => p.1.memory.virtual.percent)).rtake CHART_POINTS := by
    rw [hm1]; simp [initialApp]
  have e3 : (applyRun ((applyRun initialApp xs).toggle_logging) ys).time_history =
      ((xs.map (fun p => p.2) ++ ys.map (fun p => p.2))).rtake CHART_POINTS := by
    rw [ht3, (toggle_fields _).1, e1, rtake_append_rtake]
  have e3c : (applyRun ((applyRun initialApp xs).toggle_logging) ys).cpu_history =
      ((xs.map (fun p => p.1.cpu.total_percent) ++
        ys.map (fun p => p.1.cpu.total_percent))).rtake CHART_POINTS := by
    rw [hc3, (toggle_fields _).2.1, e1c, rtake_append_rtake]
  have e3m : (applyRun ((applyRun initialApp xs).toggle_logging) ys).mem_history =
      ((xs.map (fun p => p.1.memory.virtual.percent) ++
        ys.map (fun p => p.1.memory.virtual.percent))).rtake CHART_POINTS := by
    rw [hm3, (toggle_fields _).2.2.1, e1m, rtake_append_rtake]
  refine ⟨?_, ?_, ?_, ?_, ?_, ?_⟩
  · rw [l5, l4, l3len, l2]
    simp
  · rw [l5, l4, l3map, l2]
    simp
  · rw [ht5, (toggle_fields _).1, e3, rtake_append_rtake]
    simp [List.rtake, List.map_append]
  · rw [hc5, (toggle_fields _).2.1, e3c, rtake_append_rtake]
    simp [List.rtake, List.map_append]
  · rw [hm5, (toggle_fields _).2.2.1, e3m, rtake_append_rtake]
    simp [List.rtake, List.map_append]
  · rw [hlat5, (toggle_fields _).2.2.2.2.1, hlat3, (toggle_fields _).2.2.2.2.1, hlat1]
    simp [initialApp, List.map_append, Option.or_assoc]
/-- `runSnapshots` produces one snapshot per OS reading. -/
lemma length_runSnapshots (self : SystemSampler) (rs : List OSReading) :
    (runSnapshots self rs).length = rs.length := by
  induction rs generalizing self with
  | nil => rfl
  | cons r rs ih => simp [runSnapshots, ih]

/-- C8: the previous-counter pair is updated to the counters read in
each call before `snapshot()` returns, and the rates of the `i`-th call
in any serialized call sequence are computed from exactly the counters
read by call `i-1` (the construction-time baseline for the first call).
The sampler's lock serializes concurrent callers, so every interleaving
is one such sequence, whichever context made each call. -/
theorem prev_counters_spec :
    (∀ (self : SystemSampler) (r : OSReading),
      (self.snapshot r).2 = { prev_net := r.net_io, prev_disk := r.disk_io }) ∧
    (∀ (self : SystemSampler) (rs : List OSReading) (i : ℕ) (h : i < rs.length)
      (h2 : i < (runSnapshots self rs).length),
      (runSnapshots self rs)[i].network.rates =
        net_delta (if i = 0 then self.prev_net else rs[i - 1].net_io) rs[i].net_io) := by
  refine ⟨fun self r => rfl, ?_⟩
  intro self rs
  induction rs generalizing self with
  | nil => intro i h h2; exact absurd h (by simp)
  | cons r rs ih =>
    intro i h h2
    cases i with
    | zero =>
      simp [runSnapshots]
      rfl
    | succ n =>
      have hn : n < rs.length := by simpa using h
      have hn2 : n < (runSnapshots (self.snapshot r).2 rs).length := by
        rw [length_runSnapshots]; exact hn
      have hrec := ih (self.snapshot r).2 n hn hn2
      have hcons : (runSnapshots self (r :: rs))[n + 1] =
          (runSnapshots (self.snapshot r).2 rs)[n] := by
        simp [runSnapshots]
      rw [hcons, hrec]
      cases n with
      | zero =>
        simp
        rfl
      | succ m =>
        simp

/-- C8 witness: `prev_counters_spec` at a concrete two-call sequence:
the second call's rates use the first call's counters. -/
theorem prev_counters_witness :
    ((runSnapshots sampler0 [reading1, reading2]).get
      ⟨1, by rw [length_runSnapshots]; norm_num⟩).network.rates =
      net_delta reading1.net_io reading2.net_io := by
  have h := prev_counters_spec.2 sampler0 [reading1, reading2] 1 (by norm_num)
    (by rw [length_runSnapshots]; norm_num)
  simpa using h



/-- `mergeSort` of a two-element list. -/
lemma mergeSort_pair (le : α → α → Bool) (a b : α) :
    [a, b].mergeSort le = if le a b then [a, b] else [b, a] := by
  rw [List.mergeSort]
  simp [List.splitInTwo, List.splitAt, List.splitAt.go, List.merge]


/-- C9 counterexample: with the process-tab sort selector on "memory",
the consumer-side display refresh over the stored latest snapshot
(`refresh_processes(use_latest=True)`, the call `_apply_snapshot` makes
at line 371) re-sorts the stored snapshot's process list in place, so
the stored snapshot is no longer the snapshot that was stored: the
claimed immutability fails on this concrete state. -/
theorem refresh_mutates_counterexample :
    (app1.refresh_processes sampler0 reading1 true).1.latest_snapshot ≠ some snap1 := by
  have h2 : (app1.refresh_processes sampler0 reading1 true).1.latest_snapshot =
      some { snap1 with processes := sortPlist "memory" [proc1, proc2] } := rfl
  have h3 : sortPlist "memory" [proc1, proc2] = [proc2, proc1] := by
    rw [sortPlist]
    norm_num [mergeSort_pair, proc1, proc2]
  rw [h2, h3]
  intro hcon
  have hp := congrArg (fun o => (Option.map (fun x => x.processes) o)) hcon
  simp [snap1, proc1, proc2] at hp

/-- C9 (amended): consumer-side refresh over the stored latest snapshot
leaves every field of the consumer state and of the stored snapshot
unchanged except the process list, which keeps exactly the same entries
(a permutation) but is re-sorted in place by the selected single-key
order, so its order can change; the on-demand refresh that takes a
fresh sample (`use_latest=False`) leaves the consumer state, including
the stored snapshot, entirely unchanged. -/
theorem refresh_frame_amended :
    (∀ (st : VanillaLOOKApp) (samp : SystemSampler) (r : OSReading) (s : Snapshot),
      st.latest_snapshot = some s →
      (sortPlist st.sort_by s.processes).Perm s.processes ∧
      (st.refresh_processes samp r true).1 =
        { st with latest_snapshot := some { s with processes := sortPlist st.sort_by s.processes } }) ∧
    (∀ (st : VanillaLOOKApp) (samp : SystemSampler) (r : OSReading),
      (st.refresh_processes samp r false).1 = st) := by
  constructor
  · intro st samp r s hs
    constructor
    · rw [sortPlist]
      split
      · exact List.mergeSort_perm s.processes _
      · exact List.mergeSort_perm s.processes _
    · simp [VanillaLOOKApp.refresh_processes, hs, VanillaLOOKApp.refreshLatest]
  · intro st samp r
    rfl

/-- C9 witness: the use-latest conjunct of `refresh_frame_amended` at
the concrete state `app1`. -/
theorem refresh_frame_witness :
    (sortPlist app1.sort_by snap1.processes).Perm snap1.processes ∧
    (app1.refresh_processes sampler0 reading1 true).1 =
      { app1 with latest_snapshot := some { snap1 with processes := sortPlist app1.sort_by snap1.processes } } :=
  refresh_frame_amended.1 app1 sampler0 reading1 snap1 rfl
end VanillaLOOK
